import Mathlib

/-!
Verification development for the `amazon-uploader` repository.

The two scripts `scripts/subtitles_monitor.py` and `scripts/gdrive_migration.py`
are shallowly embedded below.  External collaborators (the `guessit` metadata
guesser, the `showsformatter` show-name normalizer, the `subliminal` provider
search, the upload collaborator, and the filesystem) are modelled as explicit
parameters/environments; all repository logic (windowing, path reconstruction,
gap detection, the acquisition accounting, and the migration utility's CLI
dispatch) is translated directly from the source.
-/

deriving instance DecidableEq for Except

namespace AmazonUploader

/-- Python exception classes that the embedded code can raise. -/
inductive PyError where
  | fileNotFoundError
  | notADirectoryError
  | attributeError
  | typeError
  | indexError
  | externalError
deriving DecidableEq

/-! ### Python string/path primitives -/

/-- `s` starts with the path separator `'/'` (the `b.startswith(sep)` test of
`posixpath.join`). -/
def startsWithSlash (s : String) : Bool :=
  s.data.head? = some '/'

/-- `s` ends with the path separator `'/'` (the `path.endswith(sep)` test of
`posixpath.join`). -/
def endsWithSlash (s : String) : Bool :=
  s.data.getLast? = some '/'

/-- Two-argument `os.path.join` (POSIX semantics): an absolute second component
replaces the path; otherwise a separator is inserted unless the accumulated
path is empty or already ends with one. -/
def pyJoin2 (a b : String) : String :=
  if startsWithSlash b then b
  else if a = "" || endsWithSlash a then a ++ b
  else a ++ "/" ++ b

/-- The ASCII whitespace characters Python's `str.strip()` removes. -/
def isPyWhitespace (c : Char) : Bool :=
  c = ' ' || c = '\t' || c = '\n' || c = '\r' || c = '\x0b' || c = '\x0c'

/-- Python `str.strip()` with no argument: remove leading and trailing
whitespace (the ASCII whitespace set; the log lines only ever carry a
trailing newline). -/
def pyStrip (s : String) : String :=
  ⟨((s.data.dropWhile isPyWhitespace).reverse.dropWhile isPyWhitespace).reverse⟩

/-- `sep` is a prefix of the second list. -/
def isPrefixList : List Char → List Char → Bool
  | [], _ => true
  | _ :: _, [] => false
  | a :: as, b :: bs => a = b && isPrefixList as bs

/-- Python `str.endswith(suffix)`. -/
def pyEndsWith (s suffix_ : String) : Bool :=
  isPrefixList suffix_.data.reverse s.data.reverse

/-- Worker for `pySplit`: scan left to right, cutting at each non-overlapping
occurrence of `sep`; the fuel (initially the input length plus one) only
makes the recursion structural and is never exhausted. -/
def pySplitGo (sep : List Char) : Nat → List Char → List Char → List (List Char)
  | 0, acc, _ => [acc.reverse]
  | _ + 1, acc, [] => [acc.reverse]
  | fuel + 1, acc, c :: rest =>
    if isPrefixList sep (c :: rest) then
      acc.reverse :: pySplitGo sep fuel [] ((c :: rest).drop sep.length)
    else
      pySplitGo sep fuel (c :: acc) rest

/-- Python `str.split(sep)` with a non-empty separator (also the value of
`str.rsplit(sep)`, which differs from `split` only when a maxsplit is given). -/
def pySplit (s sep : String) : List String :=
  (pySplitGo sep.data (s.data.length + 1) [] s.data).map (fun cs => ⟨cs⟩)

/-- Index of the last occurrence of `c` in `l`, if any (Python `str.rfind`). -/
def lastIdx (c : Char) : List Char → Option Nat
  | [] => none
  | x :: xs =>
    match lastIdx c xs with
    | some i => some (i + 1)
    | none => if x = c then some 0 else none

/-- `os.path.splitext`: split at the last dot, provided it lies inside the
basename and the basename has a non-dot character before it (so `.bashrc`
has no extension). -/
def splitext (p : String) : String × String :=
  let cs := p.data
  match lastIdx '.' cs with
  | none => (p, "")
  | some di =>
    let si : Nat :=
      match lastIdx '/' cs with
      | none => 0
      | some i => i + 1
    if si ≤ di then
      if ((cs.drop si).take (di - si)).any (fun c => c ≠ '.') then
        (⟨cs.take di⟩, ⟨cs.drop di⟩)
      else (p, "")
    else (p, "")

/-- Python `'{:02}'.format(n)` for a natural number: zero-pad to a minimum
width of two digits. -/
def pyFormat02 (n : Nat) : String :=
  if n < 10 then "0" ++ toString n else toString n

/-- One step of Python `str.title()`: the flag records whether the previous
character was cased (a letter); a letter after an uncased character is
uppercased, a letter after a cased one is lowercased. -/
def pyTitleGo : Bool → List Char → List Char
  | _, [] => []
  | prevCased, c :: cs =>
    if c.isAlpha then
      (if prevCased then c.toLower else c.toUpper) :: pyTitleGo true cs
    else
      c :: pyTitleGo false cs

/-- Python `str.title()` (ASCII letters, which is all the model needs). -/
def pyTitle (s : String) : String :=
  ⟨pyTitleGo false s.data⟩

/-! ### Constants of `scripts/subtitles_monitor.py` -/

def MEDIA_ROOT_PATH : String := "/mnt/vdb/plexdrive/gdrive_decrypted"

def TEMP_PATH : String := "/tmp"

/-- `RESULTS_LIMIT = 300` in the source (type `int`; the window reader below is
parameterized over an `Option Nat` to model "an int or `None`"). -/
def RESULTS_LIMIT : Nat := 300

def SUBTITLES_EXTENSION : String := ".srt"

def LANGUAGE_EXTENSIONS : List String := [".he", ".en"]

/-! ### LogWindowReader (source lines 136-144) -/

/-- One iteration of the `while` loop of lines 137-144: strip the line, insert
it at the front, and, when the limit is truthy and exceeded, pop the last
element.  `none` models Python `None` (falsy), `some 0` a zero limit (also
falsy). -/
def readStep (limit : Option Nat) (acc : List String) (line : String) : List String :=
  let acc' := pyStrip line :: acc
  match limit with
  | none => acc'
  | some l => if l ≠ 0 ∧ l < acc'.length then acc'.dropLast else acc'

/-- The whole read loop: fold `readStep` over the file's lines (oldest first,
as `readline` yields them). -/
def readWindow (limit : Option Nat) (lines : List String) : List String :=
  lines.foldl (readStep limit) []

/-! ### MediaPathReconstructor (source lines 146-166) -/

/-- The dynamic mapping returned by the external `guessit` call, restricted to
the keys the script reads. -/
structure Guess where
  title : Option String
  year : Option Nat
  season : Option Nat
  episode : Option Nat
deriving DecidableEq

/-- `'{}'.format(year)`: Python renders `None` as the string `"None"`. -/
def yearStr : Option Nat → String
  | none => "None"
  | some y => toString y

/-- Movie branch (source lines 160-166): `title.title()` raises
`AttributeError` when the guess has no title (`None.title()`); otherwise the
canonical movie path is assembled with `os.path.join`. -/
def buildMoviePath (movieSub : String) (title : Option String) (year : Option Nat)
    (extension : String) : Except PyError String :=
  match title with
  | none => .error .attributeError
  | some t =>
    let t := pyTitle t
    let folder := t ++ " (" ++ yearStr year ++ ")"
    .ok (pyJoin2 (pyJoin2 (pyJoin2 MEDIA_ROOT_PATH movieSub) folder) (folder ++ extension))

/-- TV branch (source lines 152-159), after the show title has been formatted:
`'Season {:02}'.format(season)` raises `TypeError` when the guess has no
season (`None.__format__('02')`); otherwise the canonical episode path is
assembled with `os.path.join`. -/
def buildTvPath (tvSub : String) (t : String) (season : Option Nat) (episode : Nat)
    (extension : String) : Except PyError String :=
  match season with
  | none => .error .typeError
  | some s =>
    .ok (pyJoin2 (pyJoin2 (pyJoin2 (pyJoin2 MEDIA_ROOT_PATH tvSub) t)
          ("Season " ++ pyFormat02 s))
          (t ++ " - S" ++ pyFormat02 s ++ "E" ++ pyFormat02 episode ++ extension))

/-- Lines 150-166: dispatch on the truthiness of `guess.get('episode')`
(`0` and `None` are falsy and select the movie branch).  `formatShow` is the
external `showsformatter.format_show` collaborator; it receives whatever
`guess.get('title')` returned (possibly `None`) and may itself raise. -/
def buildCurrentPath (formatShow : Option String → Except PyError String)
    (tvSub movieSub : String) (g : Guess) (extension : String) : Except PyError String :=
  match g.episode with
  | some e =>
    if e ≠ 0 then
      match formatShow g.title with
      | .error err => .error err
      | .ok t => buildTvPath tvSub t g.season e extension
    else
      buildMoviePath movieSub g.title g.year extension
  | none => buildMoviePath movieSub g.title g.year extension

/-! ### SubtitleGapDetector (source lines 171-175) -/

/-- `babelfish.Language.fromalpha2(code).alpha3` for the two codes that occur
in `LANGUAGE_EXTENSIONS` (a language is identified by its alpha3 code, which
is the key the aggregate map uses). -/
def fromalpha2 : String → String
  | "he" => "heb"
  | "en" => "eng"
  | _ => ""

/-- Lines 171-175: for each configured language extension, append the language
when the sidecar file `<video-base-path><language-extension><.srt>` does not
exist.  Purely a function of the `os.path.isfile` predicate. -/
def findGaps (isfile : String → Bool) (video_base_path : String) : List String :=
  LANGUAGE_EXTENSIONS.foldl
    (fun acc langExt =>
      if !isfile (video_base_path ++ langExt ++ SUBTITLES_EXTENSION) then
        acc ++ [fromalpha2 ⟨langExt.data.dropWhile (fun c => c = '.')⟩]
      else acc)
    []

/-! ### SubtitleAcquirer (`find_file_subtitles`, source lines 66-115) -/

/-- One element of a list returned by the external provider search; the script
only reads its `content` attribute (`None` models an empty-content match). -/
structure Subtitle where
  content : Option (List Nat)
deriving DecidableEq

/-- The behavior of the external collaborators during one
`find_file_subtitles(original_path, current_path, language)` call:
whether `Video.fromguess`/`download_best_subtitles` raises `ValueError`
("not a video"), the `.values()` of the returned mapping (one subtitle list
per video key), the basename that `get_subtitle_path` produces, and whether
the scratch write / the upload call succeed. -/
structure AcquireEnv where
  valueError : Bool
  providerValues : List (List Subtitle)
  subFileName : String
  saveOk : Bool
  uploadOk : Bool
deriving DecidableEq

/-- Lines 85-88: `if current_result: current_result = list(current_result)[0];
if current_result: subtitles_result = current_result[0]`. -/
def pickResult : List (List Subtitle) → Option Subtitle
  | [] => none
  | first :: _ => first.head?

/-- Source lines 76-115.  A `ValueError` is caught and the function falls off
the end (`None`).  With no result or an empty-content result the function
returns `None`.  Otherwise the scratch path is computed and returned: the
`return subtitles_path` of line 111 sits after (not inside) the
`try/except OSError` of lines 101-110, so the result does not depend on
`saveOk`, and the upload exception handler of lines 104-108 swallows upload
failures, so it does not depend on `uploadOk` either. -/
def find_file_subtitles (env : AcquireEnv) : Option String :=
  if env.valueError then none
  else
    match pickResult env.providerValues with
    | none => none
    | some sub =>
      match sub.content with
      | none => none
      | some _ => some (pyJoin2 TEMP_PATH env.subFileName)

/-! ### ResultAggregator (`defaultdict(int)` keyed by `language.alpha3`) -/

/-- `subtitles_map[k] += 1` on an insertion-ordered association list. -/
def incr : List (String × Nat) → String → List (String × Nat)
  | [], k => [(k, 1)]
  | (k', v) :: rest, k =>
    if k' = k then (k', v + 1) :: rest else (k', v) :: incr rest k

/-- Lookup with the `defaultdict(int)` default. -/
def countOf : List (String × Nat) → String → Nat
  | [], _ => 0
  | (k', v) :: rest, k => if k' = k then v else countOf rest k

/-- Source lines 177-180, one language: run the acquisition and increment the
language's counter exactly when a path was returned. -/
def processLanguageStep (env : AcquireEnv) (m : List (String × Nat)) (lang : String) :
    List (String × Nat) :=
  match find_file_subtitles env with
  | some _ => incr m lang
  | none => m

/-! ### The run loop (`main`, source lines 118-187) -/

/-- The filesystem as the script observes it. -/
structure WorldFS where
  isfile : String → Bool
  isdir : String → Bool

/-- The external collaborators and configuration values of the run:
the `guessit` guesser, the `format_show` normalizer, the configured subtree
names and log path from the `clouduploader.config` module, and the
per-invocation acquisition environment (indexed by original path, current
path and language). -/
structure Externals where
  guess : String → Guess
  formatShow : Option String → Except PyError String
  cloudTvPath : String
  cloudMoviePath : String
  originalNamesLog : String
  acquireEnv : String → String → String → AcquireEnv

/-- Source lines 146-182, one iteration of the `for original_path in
original_paths_list` loop.  A raised exception propagates: the bare `except`
of lines 185-187 logs and re-raises it. -/
def processEntry (fs : WorldFS) (ext : Externals) (counts : List (String × Nat))
    (original_path : String) : Except PyError (List (String × Nat)) :=
  let guess := ext.guess original_path
  let extension := (splitext original_path).2
  match buildCurrentPath ext.formatShow ext.cloudTvPath ext.cloudMoviePath guess extension with
  | .error e => .error e
  | .ok current_path =>
    if fs.isfile current_path then
      let video_base_path := (splitext current_path).1
      let languages_list := findGaps fs.isfile video_base_path
      .ok (languages_list.foldl
            (fun m lang => processLanguageStep (ext.acquireEnv original_path current_path lang) m lang)
            counts)
    else
      .ok counts

/-- `main` (source lines 118-187): the two startup checks of lines 125-128
raise before the loop; then the window is read and each entry processed,
any exception terminating the run (lines 185-187 re-raise).  The returned
value is the aggregate map reported by the final summary line. -/
def mainRun (fs : WorldFS) (ext : Externals) (logLines : List String) :
    Except PyError (List (String × Nat)) :=
  if !fs.isfile ext.originalNamesLog then .error .fileNotFoundError
  else if !fs.isdir MEDIA_ROOT_PATH then .error .notADirectoryError
  else
    (readWindow (some RESULTS_LIMIT) logLines).foldlM (processEntry fs ext) []

/-! ### `scripts/gdrive_migration.py` -/

def ACD_PREFIX : String := "/amazon/Amazon Cloud Drive/"

/-- A shell invocation performed by the migration utility. -/
inductive MigAction where
  | sync (p : String)
  | copyto (src dst : String)
  | unsync (p : String)
deriving DecidableEq

/-- `handle_file` (source lines 31-51): optionally sync and strip the
`.cloud` suffix, copy with rclone (the `split(ACD_PREFIX)[1]` raises
`IndexError` when the path does not contain the prefix), and unsync if a
sync happened. -/
def handle_file (input_path : String) : Except PyError (List MigAction) :=
  let (pre, path, is_synced) :=
    if pyEndsWith input_path ".cloud" then
      ([MigAction.sync input_path], (pySplit input_path ".cloud").headD "", true)
    else
      ([], input_path, false)
  match (pySplit path ACD_PREFIX).get? 1 with
  | none => .error .indexError
  | some gdrive_path =>
    .ok (pre ++ [MigAction.copyto path ("GDrive:" ++ gdrive_path)] ++
         (if is_synced then [MigAction.unsync path] else []))

/-- `handle_dir` (source lines 54-63): `handle_file` on every file that
`os.walk` yields (the walk order is part of the filesystem model). -/
def handle_dir (walk : String → List String) (input_path : String) :
    Except PyError (List MigAction) :=
  (walk input_path).foldlM (fun acc f => (handle_file f).map (fun as => acc ++ as)) []

def USAGE_MESSAGE : String := "Usage: python3 gdrive_migration.py <INPUT_PATH>"

def INVALID_PATH_MESSAGE : String := "Invalid input path given. Stopping!"

/-- Observable outcome of the migration utility's `main`. -/
inductive MigOutcome where
  | printed (msg : String)
  | ran (actions : List MigAction)
  | raised (e : PyError)
deriving DecidableEq

/-- `main` of `gdrive_migration.py` (source lines 66-81): with exactly two
argv entries, dispatch on file/dir/neither; otherwise print the usage
message.  The `.printed` outcomes perform no migration action. -/
def gmain (isfile isdir : String → Bool) (walk : String → List String)
    (abspath : String → String) (argv : List String) : MigOutcome :=
  if argv.length = 2 then
    let input_path := abspath (argv.getD 1 "")
    if isfile input_path then
      match handle_file input_path with
      | .ok as => .ran as
      | .error e => .raised e
    else if isdir input_path then
      match handle_dir walk input_path with
      | .ok as => .ran as
      | .error e => .raised e
    else .printed INVALID_PATH_MESSAGE
  else .printed USAGE_MESSAGE

/-! ### Spec-side path formulas (for the refinement claims C2 and C3) -/

/-- Two decimal digits, written the way the spec describes the zero-padding
("zero-padded to exactly two digits"); meaningful for `n < 100`. -/
def specTwoDigits (n : Nat) : String :=
  toString (n / 10) ++ toString (n % 10)

/-- The spec's episode-path formula:
`<root>/<tv-subtree>/<title>/Season <NN>/<title> - S<NN>E<NN><extension>`. -/
def specEpisodePath (tvSub t : String) (s e : Nat) (ext : String) : String :=
  MEDIA_ROOT_PATH ++ "/" ++ tvSub ++ "/" ++ t ++ "/" ++ "Season " ++ specTwoDigits s
    ++ "/" ++ t ++ " - S" ++ specTwoDigits s ++ "E" ++ specTwoDigits e ++ ext

/-- The spec's movie-path formula:
`<root>/<movie-subtree>/<Title> (<year>)/<Title> (<year>)<extension>`. -/
def specMoviePath (movieSub title : String) (y : Nat) (ext : String) : String :=
  MEDIA_ROOT_PATH ++ "/" ++ movieSub ++ "/" ++ title ++ " (" ++ toString y ++ ")"
    ++ "/" ++ title ++ " (" ++ toString y ++ ")" ++ ext

/-! ## Theorems -/

/-! ### C1: the log window -/

theorem take_append_take {α : Type} (A B : List α) (l : Nat) :
    (A ++ B.take l).take l = (A ++ B).take l := by
  rw [List.take_append_eq_append_take, List.take_append_eq_append_take, List.take_take,
    Nat.min_eq_left (Nat.sub_le l A.length)]

theorem readStep_limited (l : Nat) (hl : 0 < l) (acc : List String) (line : String)
    (h : acc.length ≤ l) :
    readStep (some l) acc line = (pyStrip line :: acc).take l := by
  unfold readStep
  by_cases hc : l < acc.length + 1
  · have hlen : acc.length = l := Nat.le_antisymm h (Nat.lt_succ_iff.mp hc)
    simp only [List.length_cons]
    rw [if_pos ⟨hl.ne', hc⟩, List.dropLast_eq_take]
    simp [hlen]
  · simp only [List.length_cons]
    rw [if_neg (fun hcon => hc hcon.2),
      List.take_of_length_le (by simpa using Nat.lt_of_not_le (fun hle => hc (by omega)))]

theorem readWindow_go (l : Nat) (hl : 0 < l) :
    ∀ (lines acc : List String), acc.length ≤ l →
      List.foldl (readStep (some l)) acc lines
        = ((lines.map pyStrip).reverse ++ acc).take l := by
  intro lines
  induction lines with
  | nil =>
    intro acc h
    simpa using (List.take_of_length_le h).symm
  | cons x xs ih =>
    intro acc h
    rw [List.foldl_cons, readStep_limited l hl acc x h,
      ih ((pyStrip x :: acc).take l) (by simp [List.length_take])]
    rw [List.map_cons, List.reverse_cons, List.append_assoc, List.singleton_append]
    exact take_append_take _ _ _

theorem readStep_unbounded (limit : Option Nat) (h : limit = none ∨ limit = some 0)
    (acc : List String) (line : String) :
    readStep limit acc line = pyStrip line :: acc := by
  rcases h with h | h <;> subst h <;> simp [readStep]

theorem readWindow_go_unbounded (limit : Option Nat) (h : limit = none ∨ limit = some 0) :
    ∀ lines acc : List String,
      List.foldl (readStep limit) acc lines = (lines.map pyStrip).reverse ++ acc := by
  intro lines
  induction lines with
  | nil => intro acc; simp
  | cons x xs ih =>
    intro acc
    rw [List.foldl_cons, readStep_unbounded limit h, ih]
    simp

/-- C1: for every log file and every positive limit, the log-window reader
returns the last `min N limit` (stripped) lines in reverse of on-disk file
order — that is, exactly `min N limit` entries, newest-first; with the limit
unset (`None`, or a zero limit, both falsy in Python) it returns all `N`
entries newest-first. -/
theorem readWindow_window (l : Nat) (lines : List String) (hl : 0 < l) :
    readWindow (some l) lines = ((lines.map pyStrip).reverse).take l
    ∧ (readWindow (some l) lines).length = min lines.length l
    ∧ readWindow none lines = (lines.map pyStrip).reverse
    ∧ readWindow (some 0) lines = (lines.map pyStrip).reverse := by
  have h1 : readWindow (some l) lines = ((lines.map pyStrip).reverse).take l := by
    simpa using readWindow_go l hl lines [] (by simp)
  refine ⟨h1, ?_, ?_, ?_⟩
  · rw [h1]
    simp [List.length_take, Nat.min_comm]
  · simpa using readWindow_go_unbounded none (Or.inl rfl) lines []
  · simpa using readWindow_go_unbounded (some 0) (Or.inr rfl) lines []

theorem readWindow_window_witness :
    (0 : Nat) < 2
    ∧ readWindow (some 2) ["a\n", "b\n", "c\n"] = ["c", "b"]
    ∧ readWindow none ["a\n", "b\n", "c\n"] = ["c", "b", "a"] := by
  have h := readWindow_window 2 ["a\n", "b\n", "c\n"] (by decide)
  exact ⟨by decide, by rw [h.1]; rfl, by rw [h.2.2.1]; rfl⟩

/-! ### String-append facts used to simplify `os.path.join` chains -/

theorem data_nil_eq_empty {s : String} (h : s.data = []) : s = "" := by
  cases s with
  | mk d =>
    simp only at h
    subst h
    rfl

theorem append_ne_empty_right (a b : String) (hb : b ≠ "") : a ++ b ≠ "" := by
  intro h
  have hd := congrArg String.data h
  rw [String.data_append] at hd
  exact hb (data_nil_eq_empty (List.append_eq_nil.mp hd).2)

theorem append_ne_empty_left (a b : String) (ha : a ≠ "") : a ++ b ≠ "" := by
  intro h
  have hd := congrArg String.data h
  rw [String.data_append] at hd
  exact ha (data_nil_eq_empty (List.append_eq_nil.mp hd).1)

theorem startsWithSlash_append_left (a b : String) (ha : a ≠ "") :
    startsWithSlash (a ++ b) = startsWithSlash a := by
  unfold startsWithSlash
  rw [String.data_append,
    List.head?_append_of_ne_nil _ (fun h => ha (data_nil_eq_empty h))]

theorem startsWithSlash_append_both (a b : String) (ha : startsWithSlash a = false)
    (hb : startsWithSlash b = false) : startsWithSlash (a ++ b) = false := by
  by_cases h : a = ""
  · subst h
    have : ("" : String) ++ b = b := String.ext (by rw [String.data_append]; rfl)
    rw [this]
    exact hb
  · rw [startsWithSlash_append_left a b h]
    exact ha

theorem endsWithSlash_append_right (a b : String) (hb : b ≠ "") :
    endsWithSlash (a ++ b) = endsWithSlash b := by
  unfold endsWithSlash
  rw [String.data_append,
    List.getLast?_append_of_ne_nil _ (fun h => hb (data_nil_eq_empty h))]

theorem pyJoin2_eq (a b : String) (hb : startsWithSlash b = false)
    (ha1 : a ≠ "") (ha2 : endsWithSlash a = false) :
    pyJoin2 a b = a ++ "/" ++ b := by
  unfold pyJoin2
  rw [hb]
  simp [ha1, ha2]

/-! ### C2 / C3: canonical path reconstruction -/

theorem pyFormat02_facts : ∀ n : Nat, n < 100 →
    pyFormat02 n = specTwoDigits n ∧ endsWithSlash (pyFormat02 n) = false
    ∧ pyFormat02 n ≠ "" := by decide

/-- C3: a guessed descriptor without an episode number takes the movie branch;
its title is rendered in Python title-case and the canonical path follows the
spec's movie formula `<root>/<movie-subtree>/<Title> (<year>)/<Title> (<year>)<ext>`
(the side conditions say the configured movie subtree is a normal relative
path component and the title does not begin with a path separator). -/
theorem buildCurrentPath_movie (fsw : Option String → Except PyError String)
    (tvSub movieSub : String) (g : Guess) (extension t : String) (y : Nat)
    (hep : g.episode = none) (ht : g.title = some t) (hy : g.year = some y)
    (h1 : startsWithSlash movieSub = false) (h2 : endsWithSlash movieSub = false)
    (h3 : movieSub ≠ "") (h4 : startsWithSlash (pyTitle t) = false) :
    buildCurrentPath fsw tvSub movieSub g extension
      = .ok (specMoviePath movieSub (pyTitle t) y extension) := by
  have hs1 : (pyTitle t ++ " (") ≠ "" := append_ne_empty_right _ _ (by decide)
  have hs2 : startsWithSlash (pyTitle t ++ " (") = false :=
    startsWithSlash_append_both _ _ h4 (by decide)
  have hs3 : startsWithSlash (pyTitle t ++ " (" ++ toString y) = false := by
    rw [startsWithSlash_append_left _ _ hs1]
    exact hs2
  have hs4 : (pyTitle t ++ " (" ++ toString y) ≠ "" := append_ne_empty_left _ _ hs1
  have hs5 : startsWithSlash (pyTitle t ++ " (" ++ toString y ++ ")") = false := by
    rw [startsWithSlash_append_left _ _ hs4]
    exact hs3
  have hfolder_ne : (pyTitle t ++ " (" ++ toString y ++ ")") ≠ "" :=
    append_ne_empty_right _ _ (by decide)
  have hend : endsWithSlash (pyTitle t ++ " (" ++ toString y ++ ")") = false := by
    rw [endsWithSlash_append_right _ _ (show (")" : String) ≠ "" by decide)]
    decide
  have hj1 : pyJoin2 MEDIA_ROOT_PATH movieSub = MEDIA_ROOT_PATH ++ "/" ++ movieSub :=
    pyJoin2_eq _ _ h1 (by decide) (by decide)
  have hj1ne : (MEDIA_ROOT_PATH ++ "/" ++ movieSub) ≠ "" := append_ne_empty_right _ _ h3
  have hj1end : endsWithSlash (MEDIA_ROOT_PATH ++ "/" ++ movieSub) = false := by
    rw [endsWithSlash_append_right _ _ h3]
    exact h2
  have hj2 : pyJoin2 (MEDIA_ROOT_PATH ++ "/" ++ movieSub)
        (pyTitle t ++ " (" ++ toString y ++ ")")
      = MEDIA_ROOT_PATH ++ "/" ++ movieSub ++ "/" ++ (pyTitle t ++ " (" ++ toString y ++ ")") :=
    pyJoin2_eq _ _ hs5 hj1ne hj1end
  have hj2ne : (MEDIA_ROOT_PATH ++ "/" ++ movieSub ++ "/"
      ++ (pyTitle t ++ " (" ++ toString y ++ ")")) ≠ "" :=
    append_ne_empty_right _ _ hfolder_ne
  have hj2end : endsWithSlash (MEDIA_ROOT_PATH ++ "/" ++ movieSub ++ "/"
      ++ (pyTitle t ++ " (" ++ toString y ++ ")")) = false := by
    rw [endsWithSlash_append_right _ _ hfolder_ne]
    exact hend
  have hfile : startsWithSlash (pyTitle t ++ " (" ++ toString y ++ ")" ++ extension) = false := by
    rw [startsWithSlash_append_left _ _ hfolder_ne]
    exact hs5
  have hj3 := pyJoin2_eq (MEDIA_ROOT_PATH ++ "/" ++ movieSub ++ "/"
      ++ (pyTitle t ++ " (" ++ toString y ++ ")"))
      (pyTitle t ++ " (" ++ toString y ++ ")" ++ extension) hfile hj2ne hj2end
  simp only [buildCurrentPath, hep, buildMoviePath, ht, hy, yearStr]
  rw [hj1, hj2, hj3]
  simp only [specMoviePath, String.append_assoc]

theorem buildCurrentPath_movie_witness :
    buildCurrentPath (fun t => .ok (t.getD "")) "TV" "Movies"
      { title := some "some movie", year := some 2019, season := none, episode := none } ".mp4"
      = .ok "/mnt/vdb/plexdrive/gdrive_decrypted/Movies/Some Movie (2019)/Some Movie (2019).mp4" := by
  rw [buildCurrentPath_movie (fun t => .ok (t.getD "")) "TV" "Movies"
    { title := some "some movie", year := some 2019, season := none, episode := none }
    ".mp4" "some movie" 2019 rfl rfl rfl (by decide) (by decide) (by decide) (by decide)]
  rfl

/-- C2 (counterexample): a descriptor that contains the episode number `0`
(with season `1`, both below 100) is routed to the movie branch by the
truthiness test `if episode:` of source line 152, so the reconstructed path is
the movie-format path, not the claimed episode-format path. -/
theorem buildCurrentPath_episode_zero_cex :
    buildCurrentPath (fun t => .ok (t.getD "")) "TV" "Movies"
      { title := some "a", year := none, season := some 1, episode := some 0 } ".mkv"
      ≠ .ok (specEpisodePath "TV" "a" 1 0 ".mkv")
    ∧ buildCurrentPath (fun t => .ok (t.getD "")) "TV" "Movies"
      { title := some "a", year := none, season := some 1, episode := some 0 } ".mkv"
      = .ok "/mnt/vdb/plexdrive/gdrive_decrypted/Movies/A (None)/A (None).mkv" := by
  constructor
  · decide
  · decide

/-- C2 (amended): a guessed descriptor with a NONZERO episode number, and
season and episode below 100, reconstructs to the spec's episode formula
`<root>/<tv-subtree>/<normalized title>/Season <NN>/<normalized title> - S<NN>E<NN><ext>`
with season and episode zero-padded to exactly two digits; the normalized
title is whatever the external `format_show` collaborator returned (the side
conditions say the configured TV subtree and the normalized title are normal
path components). -/
theorem buildCurrentPath_tv (fsw : Option String → Except PyError String)
    (tvSub movieSub : String) (g : Guess) (extension ft : String) (s e : Nat)
    (hep : g.episode = some e) (he0 : 0 < e) (he100 : e < 100)
    (hse : g.season = some s) (hs100 : s < 100)
    (hfs : fsw g.title = .ok ft)
    (h1 : startsWithSlash tvSub = false) (h2 : endsWithSlash tvSub = false) (h3 : tvSub ≠ "")
    (h4 : startsWithSlash ft = false) (h5 : endsWithSlash ft = false) (h6 : ft ≠ "") :
    buildCurrentPath fsw tvSub movieSub g extension
      = .ok (specEpisodePath tvSub ft s e extension) := by
  have hps := pyFormat02_facts s hs100
  have hpe := pyFormat02_facts e he100
  have hj1 : pyJoin2 MEDIA_ROOT_PATH tvSub = MEDIA_ROOT_PATH ++ "/" ++ tvSub :=
    pyJoin2_eq _ _ h1 (by decide) (by decide)
  have hj1ne : (MEDIA_ROOT_PATH ++ "/" ++ tvSub) ≠ "" := append_ne_empty_right _ _ h3
  have hj1end : endsWithSlash (MEDIA_ROOT_PATH ++ "/" ++ tvSub) = false := by
    rw [endsWithSlash_append_right _ _ h3]
    exact h2
  have hj2 : pyJoin2 (MEDIA_ROOT_PATH ++ "/" ++ tvSub) ft
      = MEDIA_ROOT_PATH ++ "/" ++ tvSub ++ "/" ++ ft :=
    pyJoin2_eq _ _ h4 hj1ne hj1end
  have hj2ne : (MEDIA_ROOT_PATH ++ "/" ++ tvSub ++ "/" ++ ft) ≠ "" :=
    append_ne_empty_right _ _ h6
  have hj2end : endsWithSlash (MEDIA_ROOT_PATH ++ "/" ++ tvSub ++ "/" ++ ft) = false := by
    rw [endsWithSlash_append_right _ _ h6]
    exact h5
  have hseas_s : startsWithSlash ("Season " ++ pyFormat02 s) = false := by
    rw [startsWithSlash_append_left _ _ (show ("Season " : String) ≠ "" by decide)]
    decide
  have hseas_ne : ("Season " ++ pyFormat02 s) ≠ "" :=
    append_ne_empty_left _ _ (by decide)
  have hseas_end : endsWithSlash ("Season " ++ pyFormat02 s) = false := by
    rw [endsWithSlash_append_right _ _ hps.2.2]
    exact hps.2.1
  have hj3 : pyJoin2 (MEDIA_ROOT_PATH ++ "/" ++ tvSub ++ "/" ++ ft) ("Season " ++ pyFormat02 s)
      = MEDIA_ROOT_PATH ++ "/" ++ tvSub ++ "/" ++ ft ++ "/" ++ ("Season " ++ pyFormat02 s) :=
    pyJoin2_eq _ _ hseas_s hj2ne hj2end
  have hj3ne : (MEDIA_ROOT_PATH ++ "/" ++ tvSub ++ "/" ++ ft ++ "/"
      ++ ("Season " ++ pyFormat02 s)) ≠ "" :=
    append_ne_empty_right _ _ hseas_ne
  have hj3end : endsWithSlash (MEDIA_ROOT_PATH ++ "/" ++ tvSub ++ "/" ++ ft ++ "/"
      ++ ("Season " ++ pyFormat02 s)) = false := by
    rw [endsWithSlash_append_right _ _ hseas_ne]
    exact hseas_end
  have ha1ne : (ft ++ " - S") ≠ "" := append_ne_empty_right _ _ (by decide)
  have ha1 : startsWithSlash (ft ++ " - S") = false := by
    rw [startsWithSlash_append_left _ _ h6]
    exact h4
  have ha2ne : (ft ++ " - S" ++ pyFormat02 s) ≠ "" := append_ne_empty_left _ _ ha1ne
  have ha2 : startsWithSlash (ft ++ " - S" ++ pyFormat02 s) = false := by
    rw [startsWithSlash_append_left _ _ ha1ne]
    exact ha1
  have ha3ne : (ft ++ " - S" ++ pyFormat02 s ++ "E") ≠ "" := append_ne_empty_left _ _ ha2ne
  have ha3 : startsWithSlash (ft ++ " - S" ++ pyFormat02 s ++ "E") = false := by
    rw [startsWithSlash_append_left _ _ ha2ne]
    exact ha2
  have ha4ne : (ft ++ " - S" ++ pyFormat02 s ++ "E" ++ pyFormat02 e) ≠ "" :=
    append_ne_empty_left _ _ ha3ne
  have ha4 : startsWithSlash (ft ++ " - S" ++ pyFormat02 s ++ "E" ++ pyFormat02 e) = false := by
    rw [startsWithSlash_append_left _ _ ha3ne]
    exact ha3
  have hfile : startsWithSlash
      (ft ++ " - S" ++ pyFormat02 s ++ "E" ++ pyFormat02 e ++ extension) = false := by
    rw [startsWithSlash_append_left _ _ ha4ne]
    exact ha4
  have hj4 := pyJoin2_eq
    (MEDIA_ROOT_PATH ++ "/" ++ tvSub ++ "/" ++ ft ++ "/" ++ ("Season " ++ pyFormat02 s))
    (ft ++ " - S" ++ pyFormat02 s ++ "E" ++ pyFormat02 e ++ extension) hfile hj3ne hj3end
  simp only [buildCurrentPath, hep, if_pos he0.ne', hfs, buildTvPath, hse]
  rw [hj1, hj2, hj3, hj4, hps.1, hpe.1]
  simp only [specEpisodePath, String.append_assoc]

theorem buildCurrentPath_tv_witness :
    buildCurrentPath (fun t => .ok (t.getD "")) "TV" "Movies"
      { title := some "Show Name", year := none, season := some 1, episode := some 5 } ".mkv"
      = .ok "/mnt/vdb/plexdrive/gdrive_decrypted/TV/Show Name/Season 01/Show Name - S01E05.mkv" := by
  rw [buildCurrentPath_tv (fun t => .ok (t.getD "")) "TV" "Movies"
    { title := some "Show Name", year := none, season := some 1, episode := some 5 }
    ".mkv" "Show Name" 1 5 rfl (by decide) (by decide) rfl (by decide) rfl
    (by decide) (by decide) (by decide) (by decide) (by decide) (by decide)]
  rfl

/-! ### C4: gap detection -/

theorem findGaps_eval (isfile : String → Bool) (base : String) :
    findGaps isfile base =
      (if isfile (base ++ ".he" ++ SUBTITLES_EXTENSION) then [] else ["heb"])
      ++ (if isfile (base ++ ".en" ++ SUBTITLES_EXTENSION) then [] else ["eng"]) := by
  cases hhe : isfile (base ++ ".he" ++ SUBTITLES_EXTENSION) <;>
    cases hen : isfile (base ++ ".en" ++ SUBTITLES_EXTENSION) <;>
      simp [findGaps, LANGUAGE_EXTENSIONS, hhe, hen] <;>
        first
        | rfl
        | exact ⟨rfl, rfl⟩

/-- C4: for every filesystem state and canonical video base path, the gap list
contains a configured language exactly when its sidecar file
`<video-base-path><language-extension>.srt` is absent; hence it is empty when
both sidecars exist and holds both configured languages when neither does.
(`findGaps` is a function of the `isfile` predicate alone — no provider is
involved in gap detection.) -/
theorem findGaps_gap_iff (isfile : String → Bool) (base : String) :
    (("heb" ∈ findGaps isfile base ↔ isfile (base ++ ".he" ++ SUBTITLES_EXTENSION) = false)
      ∧ ("eng" ∈ findGaps isfile base ↔ isfile (base ++ ".en" ++ SUBTITLES_EXTENSION) = false))
    ∧ (isfile (base ++ ".he" ++ SUBTITLES_EXTENSION) = true →
        isfile (base ++ ".en" ++ SUBTITLES_EXTENSION) = true →
        findGaps isfile base = [])
    ∧ (isfile (base ++ ".he" ++ SUBTITLES_EXTENSION) = false →
        isfile (base ++ ".en" ++ SUBTITLES_EXTENSION) = false →
        findGaps isfile base = ["heb", "eng"]) := by
  rw [findGaps_eval]
  cases hhe : isfile (base ++ ".he" ++ SUBTITLES_EXTENSION) <;>
    cases hen : isfile (base ++ ".en" ++ SUBTITLES_EXTENSION) <;> simp

theorem findGaps_gap_iff_witness :
    findGaps (fun _ => false) "/v/x" = ["heb", "eng"]
    ∧ findGaps (fun _ => true) "/v/x" = [] := by
  exact ⟨(findGaps_gap_iff (fun _ => false) "/v/x").2.2 rfl rfl,
    (findGaps_gap_iff (fun _ => true) "/v/x").2.1 rfl rfl⟩

/-! ### C5 / C8 / C10: acquisition outcomes and aggregate accounting -/

theorem countOf_incr (m : List (String × Nat)) (k : String) :
    countOf (incr m k) k = countOf m k + 1 := by
  induction m with
  | nil => simp [incr, countOf]
  | cons p rest ih =>
    obtain ⟨k', v⟩ := p
    by_cases h : k' = k <;> simp [incr, countOf, h, ih]

/-- The environment of an acquisition whose provider returned a contentful
best match but whose scratch write fails with an `OSError`. -/
def saveFailEnv : AcquireEnv :=
  { valueError := false, providerValues := [[{ content := some [104] }]],
    subFileName := "Video.he.srt", saveOk := false, uploadOk := true }

/-- C5 (divergence): the claim — and the function's own docstring
(":return: The subtitles file path, or None if a problem occurred.") — say a
failed scratch write yields nothing, but the `return subtitles_path` of source
line 111 sits after, not inside, the `try/except OSError` of lines 101-110:
with the write failing (`saveOk = false`) the path is still returned and the
aggregate count for the language is still incremented. -/
theorem find_file_subtitles_save_failure :
    saveFailEnv.saveOk = false
    ∧ find_file_subtitles saveFailEnv = some "/tmp/Video.he.srt"
    ∧ countOf (processLanguageStep saveFailEnv [] "heb") "heb" = 1 := by
  refine ⟨rfl, by decide, by decide⟩

/-- C8: when the provider returns a contentful best match, the write succeeds
and the upload collaborator raises, the exception is swallowed by the handler
of source lines 104-108: `find_file_subtitles` still returns the saved scratch
path, the result does not depend on the upload outcome at all, and the
aggregate count for the language is incremented by exactly one. -/
theorem find_file_subtitles_upload_failure (env : AcquireEnv) (sub : Subtitle) (c : List Nat)
    (m : List (String × Nat)) (lang : String)
    (h1 : env.valueError = false) (h2 : pickResult env.providerValues = some sub)
    (h3 : sub.content = some c) (_h4 : env.saveOk = true) (_h5 : env.uploadOk = false) :
    find_file_subtitles env = some (pyJoin2 TEMP_PATH env.subFileName)
    ∧ (∀ b, find_file_subtitles { env with uploadOk := b } = find_file_subtitles env)
    ∧ countOf (processLanguageStep env m lang) lang = countOf m lang + 1 := by
  have hf : find_file_subtitles env = some (pyJoin2 TEMP_PATH env.subFileName) := by
    simp [find_file_subtitles, h1, h2, h3]
  refine ⟨hf, ?_, ?_⟩
  · intro b
    simp [find_file_subtitles, h1, h2, h3]
  · simp [processLanguageStep, hf, countOf_incr]

/-- The environment of an acquisition whose save succeeds but whose upload
raises. -/
def uploadFailEnv : AcquireEnv :=
  { valueError := false, providerValues := [[{ content := some [115] }]],
    subFileName := "Movie.en.srt", saveOk := true, uploadOk := false }

theorem find_file_subtitles_upload_failure_witness :
    find_file_subtitles uploadFailEnv = some "/tmp/Movie.en.srt"
    ∧ countOf (processLanguageStep uploadFailEnv [] "eng") "eng" = 1 := by
  have h := find_file_subtitles_upload_failure uploadFailEnv { content := some [115] } [115]
    [] "eng" rfl rfl rfl rfl rfl
  refine ⟨by rw [h.1]; decide, by rw [h.2.2]; rfl⟩

/-- C10: when the provider returns a best match whose content payload is
`None`, the guard of source lines 95-96 skips the save and the function falls
through to `return None` (line 112), so the acquisition yields nothing and the
aggregate map is left unchanged. -/
theorem find_file_subtitles_empty_content (env : AcquireEnv) (sub : Subtitle)
    (m : List (String × Nat)) (lang : String)
    (h1 : env.valueError = false) (h2 : pickResult env.providerValues = some sub)
    (h3 : sub.content = none) :
    find_file_subtitles env = none ∧ processLanguageStep env m lang = m := by
  have hf : find_file_subtitles env = none := by
    simp [find_file_subtitles, h1, h2, h3]
  exact ⟨hf, by simp [processLanguageStep, hf]⟩

/-- The environment of an acquisition whose provider returns a placeholder
match with no content. -/
def emptyContentEnv : AcquireEnv :=
  { valueError := false, providerValues := [[{ content := none }]],
    subFileName := "Video.he.srt", saveOk := true, uploadOk := true }

theorem find_file_subtitles_empty_content_witness :
    find_file_subtitles emptyContentEnv = none
    ∧ processLanguageStep emptyContentEnv [("eng", 3)] "heb" = [("eng", 3)] :=
  find_file_subtitles_empty_content emptyContentEnv { content := none } [("eng", 3)] "heb"
    rfl rfl rfl

/-! ### C6 / C7: the run loop -/

theorem except_error_bind {ε α β : Type} (e : ε) (f : α → Except ε β) :
    (Except.error e >>= f : Except ε β) = Except.error e := rfl

/-- A guesser that cannot produce a title (nor an episode) for the entry
`bad.file` and produces a normal movie guess for every other path, together
with unexceptional remaining collaborators. -/
def sampleExternals : Externals :=
  { guess := fun p =>
      if p = "bad.file" then { title := none, year := none, season := none, episode := none }
      else { title := some "x", year := some 2000, season := none, episode := none },
    formatShow := fun t => .ok (t.getD ""),
    cloudTvPath := "TV", cloudMoviePath := "Movies",
    originalNamesLog := "/var/log/original_names.log",
    acquireEnv := fun _ _ _ =>
      { valueError := false, providerValues := [], subFileName := "",
        saveOk := true, uploadOk := true } }

/-- A filesystem on which the startup checks pass and no media file exists. -/
def sampleFS : WorldFS :=
  { isfile := fun p => p = "/var/log/original_names.log",
    isdir := fun p => p = MEDIA_ROOT_PATH }

/-- C6 (counterexample): with the entry `bad.file` — whose guess carries no
usable title — as the newest log line, the run terminates with the
`AttributeError` raised by `title.title()` at source line 162, which the bare
handler of lines 185-187 logs and re-raises: the entry is not skipped, the
remaining entry `good.file` is never processed, and no aggregate summary is
produced.  The same log without the bad entry completes with a summary. -/
theorem mainRun_missing_title_cex :
    mainRun sampleFS sampleExternals ["good.file", "bad.file"]
      = Except.error PyError.attributeError
    ∧ mainRun sampleFS sampleExternals ["good.file"] = Except.ok [] := by
  constructor
  · decide
  · decide

/-- C6 (amended): a raw log entry whose guess has no title and no episode
number makes reconstruction raise an `AttributeError` (`None.title()`, source
line 162); the bare `except` of lines 185-187 logs and re-raises it, so when
such an entry is the newest log line the whole run terminates with that error
instead of skipping the entry, and no summary is produced. -/
theorem mainRun_missing_title (fs : WorldFS) (ext : Externals) (pre : List String) (bad : String)
    (hlog : fs.isfile ext.originalNamesLog = true) (hdir : fs.isdir MEDIA_ROOT_PATH = true)
    (ht : (ext.guess (pyStrip bad)).title = none)
    (he : (ext.guess (pyStrip bad)).episode = none) :
    mainRun fs ext (pre ++ [bad]) = Except.error PyError.attributeError := by
  have hwin : readWindow (some RESULTS_LIMIT) (pre ++ [bad])
      = pyStrip bad :: (pre.map pyStrip).reverse.take 299 := by
    have h := (readWindow_window RESULTS_LIMIT (pre ++ [bad]) (by decide)).1
    rw [h, List.map_append, List.reverse_append]
    simp only [List.map_cons, List.map_nil, List.reverse_cons, List.reverse_nil,
      List.nil_append, List.singleton_append]
    rw [show RESULTS_LIMIT = 299 + 1 from rfl, List.take_succ_cons]
  have hentry : processEntry fs ext [] (pyStrip bad) = Except.error PyError.attributeError := by
    simp only [processEntry, buildCurrentPath, he, buildMoviePath, ht]
  simp only [mainRun, hlog, hdir, Bool.not_true, Bool.false_eq_true, if_false]
  rw [hwin, List.foldlM_cons, hentry, except_error_bind]

theorem mainRun_missing_title_witness :
    mainRun sampleFS sampleExternals ["bad.file"] = Except.error PyError.attributeError :=
  mainRun_missing_title sampleFS sampleExternals [] "bad.file"
    (by decide) (by decide) (by decide) (by decide)

/-- C7: when the historical log file does not exist at startup the run fails
with the `FileNotFoundError` of source line 126, and when the log exists but
the library root directory is missing it fails with the `NotADirectoryError`
of line 128 — in both cases before any log entry is processed (the outcome
does not depend on the log's contents at all) and with no aggregate summary
produced (the result is an error, never an `ok` summary). -/
theorem mainRun_config_error (fs : WorldFS) (ext : Externals) (lines : List String) :
    (fs.isfile ext.originalNamesLog = false →
      mainRun fs ext lines = Except.error PyError.fileNotFoundError
      ∧ mainRun fs ext lines = mainRun fs ext [])
    ∧ (fs.isfile ext.originalNamesLog = true → fs.isdir MEDIA_ROOT_PATH = false →
      mainRun fs ext lines = Except.error PyError.notADirectoryError
      ∧ mainRun fs ext lines = mainRun fs ext []) := by
  constructor
  · intro h
    constructor <;> simp [mainRun, h]
  · intro h1 h2
    constructor <;> simp [mainRun, h1, h2]

/-- A filesystem with neither the log file nor the media root. -/
def emptyFS : WorldFS := { isfile := fun _ => false, isdir := fun _ => false }

theorem mainRun_config_error_witness :
    mainRun emptyFS sampleExternals ["x"] = Except.error PyError.fileNotFoundError :=
  ((mainRun_config_error emptyFS sampleExternals ["x"]).1 rfl).1

/-! ### C9: the migration utility's CLI guard -/

/-- C9: with a wrong number of command-line arguments the migration utility
prints the usage message, and with two arguments whose path is neither an
existing file nor an existing directory it prints the invalid-path message;
in both cases the outcome is a `printed` one, which carries no migration
action — no sync, copy or unsync is performed. -/
theorem gmain_no_action (isfile isdir : String → Bool) (walk : String → List String)
    (abspath : String → String) (argv : List String) :
    (argv.length ≠ 2 → gmain isfile isdir walk abspath argv = .printed USAGE_MESSAGE)
    ∧ (∀ prog p, argv = [prog, p] →
        isfile (abspath p) = false →
        isdir (abspath p) = false →
        gmain isfile isdir walk abspath argv = .printed INVALID_PATH_MESSAGE) := by
  constructor
  · intro h
    simp [gmain, h]
  · intro prog p hargv h2 h3
    subst hargv
    simp [gmain, h2, h3]

theorem gmain_no_action_witness :
    gmain (fun _ => false) (fun _ => false) (fun _ => []) (fun s => s) ["gdrive_migration.py"]
      = .printed USAGE_MESSAGE
    ∧ gmain (fun _ => false) (fun _ => false) (fun _ => []) (fun s => s)
        ["gdrive_migration.py", "/nope"] = .printed INVALID_PATH_MESSAGE :=
  ⟨(gmain_no_action (fun _ => false) (fun _ => false) (fun _ => []) (fun s => s)
      ["gdrive_migration.py"]).1 (by decide),
    (gmain_no_action (fun _ => false) (fun _ => false) (fun _ => []) (fun s => s)
      ["gdrive_migration.py", "/nope"]).2 "gdrive_migration.py" "/nope" rfl rfl rfl⟩

end AmazonUploader
